import Mathlib

/-!
Verification of `src/platform/with_egl/surface.rs` (surfman EGL backend).

The file is shallowly embedded: the EGL display connection and the GL API
are modelled as explicit mock state threaded through each operation, and a
Rust `panic!` is modelled as a distinct result constructor carrying the
panic message (a panic aborts; it is not a typed error returned to the
caller).  `debug_assert!` is modelled as active (it panics when its
condition fails), matching debug builds.  The source's `found_configs` /
`configs_found` and `from_version_size_formats` / `from_version_size_format`
identifier pairs are typos for one variable and one function respectively
and are modelled as such.  The two lines referencing a nonexistent
`io_surface` field (a leftover from another backend that cannot compile)
are omitted.
-/

namespace Surfman

/-- `gleam::gl` constants used by the source (standard OpenGL values). -/
def GL_TEXTURE_2D : Nat := 0x0DE1

def GL_TEXTURE_MAG_FILTER : Nat := 0x2800

def GL_TEXTURE_MIN_FILTER : Nat := 0x2801

def GL_TEXTURE_WRAP_S : Nat := 0x2802

def GL_TEXTURE_WRAP_T : Nat := 0x2803

def GL_NEAREST : Nat := 0x2600

def GL_CLAMP_TO_EDGE : Nat := 0x812F

def GL_NO_ERROR : Nat := 0

/-- `egl` constants used by the source (standard EGL values). -/
def EGL_SURFACE_TYPE : Int := 0x3033

def EGL_PBUFFER_BIT : Int := 0x0001

def EGL_RENDERABLE_TYPE : Int := 0x3040

def EGL_BIND_TO_TEXTURE_RGBA : Int := 0x303A

def EGL_TEXTURE_TARGET : Int := 0x3081

def EGL_RED_SIZE : Int := 0x3024

def EGL_GREEN_SIZE : Int := 0x3023

def EGL_BLUE_SIZE : Int := 0x3022

def EGL_ALPHA_SIZE : Int := 0x3021

def EGL_NONE : Int := 0x3038

def EGL_WIDTH : Int := 0x3057

def EGL_HEIGHT : Int := 0x3056

def OPENGL_BIT : Int := 0x0008

def OPENGL_ES_BIT : Int := 0x0001

def OPENGL_ES2_BIT : Int := 0x0004

def OPENGL_ES3_BIT : Int := 0x0040

/-- `crate::GlType`: desktop GL versus embedded GL (GLES). -/
inductive GlType where
  | Gl
  | Gles
deriving DecidableEq, Repr

/-- `crate::GLVersion { major, minor }` (u8 fields, modelled as Nat). -/
structure GLVersion where
  major : Nat
  minor : Nat
deriving DecidableEq, Repr

/-- `GLVersion::major_version()`. -/
def GLVersion.major_version (v : GLVersion) : Nat :=
  v.major

/-- `crate::gl_formats::Format` (external to this file; only stored and
returned by the code under verification, so modelled as an enum). -/
inductive Format where
  | rgba8
  | rgb8
deriving DecidableEq, Repr

/-- `euclid::default::Size2D<i32>`. -/
structure Size2D where
  width : Int
  height : Int
deriving DecidableEq, Repr

/-- `get_pbuffer_renderable_type` (surface.rs lines 219-226), translated
arm by arm from the Rust `match`. -/
def get_pbuffer_renderable_type (api_type : GlType) (api_version : GLVersion) :
    Int :=
  match api_type, api_version.major_version with
  | GlType.Gl, _ => OPENGL_BIT
  | GlType.Gles, version =>
    if version < 2 then OPENGL_ES_BIT
    else if version = 2 then OPENGL_ES2_BIT
    else OPENGL_ES3_BIT

/-- The policy table of spec section 4.2, written from the spec's words:
desktop GL at any version maps to the desktop-GL bit, embedded GL maps by
major version (< 2, == 2, >= 3); a pair outside the table is `none`. -/
def renderableTypeTable (api_type : GlType) (major : Nat) : Option Int :=
  match api_type with
  | GlType.Gl => some OPENGL_BIT
  | GlType.Gles =>
    if major < 2 then some OPENGL_ES_BIT
    else if major = 2 then some OPENGL_ES2_BIT
    else some OPENGL_ES3_BIT

/-- Mock of the EGL display connection (external collaborator).  Its
function fields consume exactly the attribute lists the source builds and
return the out-parameters of the corresponding EGL calls:
`ChooseConfig attrs = (result == EGL_TRUE, config, configs_found)` and
`CreatePbufferSurface config attrs = surface handle` (0 = `EGL_NO_SURFACE`). -/
structure EglDisplay where
  ChooseConfig : List Int → Bool × Nat × Nat
  CreatePbufferSurface : Nat → List Int → Nat

/-- `NativeSurface` (surface.rs lines 36-43).  `wrapper` is the
`EGLSurface` handle held by the `Arc<EGLSurfaceWrapper>`; the reference
counting of the `Arc` itself is modelled separately by `ArcState`. -/
structure NativeSurface where
  wrapper : Nat
  config : Nat
  api_version : GLVersion
  size : Size2D
  format : Format
deriving DecidableEq, Repr

/-- Outcome of `NativeSurface::from_version_size_format`: either a surface
or a Rust `panic!` (a process abort carrying a message, not a typed error
value returned to the caller). -/
inductive SurfResult where
  | ok (surface : NativeSurface)
  | panicked (msg : String)
deriving DecidableEq, Repr

/-- The `pbuffer_attributes` array built at surface.rs lines 79-90. -/
def pbuffer_attributes (renderable_type : Int) : List Int :=
  [EGL_SURFACE_TYPE, EGL_PBUFFER_BIT,
   EGL_RENDERABLE_TYPE, renderable_type,
   EGL_BIND_TO_TEXTURE_RGBA, 1,
   EGL_TEXTURE_TARGET, (GL_TEXTURE_2D : Int),
   EGL_RED_SIZE, 8,
   EGL_GREEN_SIZE, 8,
   EGL_BLUE_SIZE, 8,
   EGL_ALPHA_SIZE, 0,
   EGL_NONE, 0,
   0, 0]

/-- The width/height `attrs` array built at surface.rs lines 106-111. -/
def pbuffer_size_attributes (size : Size2D) : List Int :=
  [EGL_WIDTH, size.width,
   EGL_HEIGHT, size.height,
   EGL_NONE, 0,
   0, 0]

/-- `NativeSurface::from_version_size_format` (surface.rs lines 71-126):
derives the renderable type, chooses a configuration, creates the pbuffer
surface, and panics (process abort) on each failure with the source's
message. -/
def NativeSurface.from_version_size_format (d : EglDisplay)
    (api_type : GlType) (api_version : GLVersion)
    (size : Size2D) (format : Format) : SurfResult :=
  let renderable_type := get_pbuffer_renderable_type api_type api_version
  let chooseResult := d.ChooseConfig (pbuffer_attributes renderable_type)
  let config := chooseResult.2.1
  let configs_found := chooseResult.2.2
  if chooseResult.1 = false then
    SurfResult.panicked "Failed to choose an EGL configuration!"
  else if configs_found = 0 then
    SurfResult.panicked "No valid EGL configurations found!"
  else
    let egl_surface :=
      d.CreatePbufferSurface config (pbuffer_size_attributes size)
    if egl_surface = 0 then
      SurfResult.panicked "Failed to create EGL surface!"
    else
      SurfResult.ok
        { wrapper := egl_surface, config := config,
          api_version := api_version, size := size, format := format }

/-- `NativeSurface::id` (surface.rs lines 147-150): the handle cast
`as usize as u32`, i.e. truncated to 32 bits. -/
def NativeSurface.id (s : NativeSurface) : Nat :=
  s.wrapper % 2 ^ 32

/-- Reference-count state of one `Arc<EGLSurfaceWrapper>`: the number of
live owning references and the number of `egl::DestroySurface` calls made
so far by `Drop for EGLSurfaceWrapper` (surface.rs lines 56-62). -/
structure ArcState where
  refcount : Nat
  destroyCalls : Nat
deriving DecidableEq, Repr

/-- An operation on the shared surface: `NativeSurface::clone` (the
`#[derive(Clone)]` on line 36 clones the `Arc`), or dropping one
`NativeSurface` value. -/
inductive ArcOp where
  | clone
  | drop
deriving DecidableEq, Repr

/-- Semantics of one `Arc` operation: cloning increments the count;
dropping decrements it, and when the last reference goes the wrapper's
`Drop` impl runs `egl::DestroySurface` once. -/
def arcStep (s : ArcState) : ArcOp → ArcState
  | ArcOp.clone => { s with refcount := s.refcount + 1 }
  | ArcOp.drop =>
    if s.refcount = 1 then
      { refcount := 0, destroyCalls := s.destroyCalls + 1 }
    else
      { s with refcount := s.refcount - 1 }

/-- Run a sequence of clone/drop operations. -/
def arcRun (s : ArcState) : List ArcOp → ArcState
  | [] => s
  | op :: ops => arcRun (arcStep s op) ops

/-- A sequence is valid when every operation happens while at least one
owning reference is still alive (Rust cannot clone or drop a value that no
longer exists). -/
def arcValid (s : ArcState) : List ArcOp → Bool
  | [] => true
  | op :: ops => decide (0 < s.refcount) && arcValid (arcStep s op) ops

/-- State right after `Arc::new(EGLSurfaceWrapper(..))` on line 119: one
reference, no destroy call yet. -/
def arcInit : ArcState :=
  { refcount := 1, destroyCalls := 0 }

/-- Mock state of the GL API plus the display's texture-image calls,
threaded through `NativeSurfaceTexture` operations.  `nextTexture` is the
id the mock `gl.gen_textures(1)` returns; `bindTexImageOk` is whether the
mock `egl::BindTexImage` reports success; `glError` is the mock
`gl.get_error()` value (never mutated by this code). -/
structure GlState where
  nextTexture : Nat
  currentTexture2D : Nat
  deletedTextures : List Nat
  texParams : List (Nat × Nat × Int)
  bindTexImageOk : Bool
  boundTexImages : List (Nat × Nat)
  releasedTexImages : List (Nat × Nat)
  glError : Nat
deriving DecidableEq, Repr

/-- `NativeSurfaceTexture` (surface.rs lines 45-50); the `PhantomData`
marker has no runtime content and is omitted. -/
structure NativeSurfaceTexture where
  surface : NativeSurface
  gl_texture : Nat
deriving DecidableEq, Repr

/-- Outcome of `NativeSurfaceTexture::new`: the updated GL state and the
binding, or a panic (from `debug_assert!` or the bind-failure `panic!`)
carrying the GL state at the moment the panic fired. -/
inductive NewResult where
  | ok (st : GlState) (texture : NativeSurfaceTexture)
  | panicked (st : GlState) (msg : String)
deriving DecidableEq, Repr

/-- `NativeSurfaceTexture::new` (surface.rs lines 159-185), step by step:
generate one texture id (`debug_assert!(texture != 0)`), bind it as the
current 2D texture, `egl::BindTexImage` (`panic!` on `egl::FALSE` —
note the allocated texture is NOT deleted on that path), set the four
texture parameters, rebind texture 0, and
`debug_assert_eq!(gl.get_error(), gl::NO_ERROR)`. -/
def NativeSurfaceTexture.new (st : GlState) (native_surface : NativeSurface) :
    NewResult :=
  let texture := st.nextTexture
  if texture = 0 then
    NewResult.panicked st "assertion failed: texture != 0"
  else if st.bindTexImageOk = false then
    NewResult.panicked { st with currentTexture2D := texture }
      "Failed to bind EGL texture surface!"
  else if st.glError ≠ GL_NO_ERROR then
    NewResult.panicked
      { st with
          currentTexture2D := 0,
          boundTexImages :=
            st.boundTexImages ++ [(native_surface.wrapper, texture)],
          texParams := st.texParams ++
            [(GL_TEXTURE_2D, GL_TEXTURE_MAG_FILTER, (GL_NEAREST : Int)),
             (GL_TEXTURE_2D, GL_TEXTURE_MIN_FILTER, (GL_NEAREST : Int)),
             (GL_TEXTURE_2D, GL_TEXTURE_WRAP_S, (GL_CLAMP_TO_EDGE : Int)),
             (GL_TEXTURE_2D, GL_TEXTURE_WRAP_T, (GL_CLAMP_TO_EDGE : Int))] }
      "assertion failed: gl.get_error() == gl::NO_ERROR"
  else
    NewResult.ok
      { st with
          currentTexture2D := 0,
          boundTexImages :=
            st.boundTexImages ++ [(native_surface.wrapper, texture)],
          texParams := st.texParams ++
            [(GL_TEXTURE_2D, GL_TEXTURE_MAG_FILTER, (GL_NEAREST : Int)),
             (GL_TEXTURE_2D, GL_TEXTURE_MIN_FILTER, (GL_NEAREST : Int)),
             (GL_TEXTURE_2D, GL_TEXTURE_WRAP_S, (GL_CLAMP_TO_EDGE : Int)),
             (GL_TEXTURE_2D, GL_TEXTURE_WRAP_T, (GL_CLAMP_TO_EDGE : Int))] }
      { surface := native_surface, gl_texture := texture }

/-- `NativeSurfaceTexture::destroy` (surface.rs lines 208-216):
`egl::ReleaseTexImage`, `gl.delete_textures(&[self.gl_texture])`, then
zero the stored texture id.  Note it is callable again on the
already-destroyed binding, in which case it releases/deletes texture 0. -/
def NativeSurfaceTexture.destroy (st : GlState) (t : NativeSurfaceTexture) :
    GlState × NativeSurfaceTexture :=
  ({ st with
       releasedTexImages :=
         st.releasedTexImages ++ [(t.surface.wrapper, t.gl_texture)],
       deletedTextures := st.deletedTextures ++ [t.gl_texture] },
   { t with gl_texture := 0 })

/-- `NativeSurfaceTexture::into_surface` (surface.rs lines 192-196):
destroy, then return the owned surface. -/
def NativeSurfaceTexture.into_surface (st : GlState)
    (t : NativeSurfaceTexture) : GlState × NativeSurface :=
  let p := NativeSurfaceTexture.destroy st t
  (p.1, p.2.surface)

/-- `NativeSurfaceTexture::gl_texture_target` (surface.rs lines 203-206):
the constant `gl::TEXTURE_2D`, independent of the binding's state. -/
def NativeSurfaceTexture.gl_texture_target (_ : NativeSurfaceTexture) :
    Nat :=
  GL_TEXTURE_2D

/-- Apply `destroy` to a binding `n` times in a row. -/
def applyDestroys : Nat → GlState × NativeSurfaceTexture →
    GlState × NativeSurfaceTexture
  | 0, p => p
  | n + 1, p => applyDestroys n (NativeSurfaceTexture.destroy p.1 p.2)

/-- A concrete healthy GL state used by witnesses. -/
def wGl : GlState :=
  { nextTexture := 1, currentTexture2D := 0, deletedTextures := [],
    texParams := [], bindTexImageOk := true, boundTexImages := [],
    releasedTexImages := [], glError := 0 }

/-- A concrete surface used by witnesses. -/
def wSurf : NativeSurface :=
  { wrapper := 7, config := 3, api_version := { major := 3, minor := 0 },
    size := { width := 64, height := 64 }, format := Format.rgba8 }

/-- The GL state after a successful `new wGl wSurf`, used by witnesses. -/
def wGl1 : GlState :=
  { wGl with
      boundTexImages := [(7, 1)],
      texParams :=
        [(GL_TEXTURE_2D, GL_TEXTURE_MAG_FILTER, (GL_NEAREST : Int)),
         (GL_TEXTURE_2D, GL_TEXTURE_MIN_FILTER, (GL_NEAREST : Int)),
         (GL_TEXTURE_2D, GL_TEXTURE_WRAP_S, (GL_CLAMP_TO_EDGE : Int)),
         (GL_TEXTURE_2D, GL_TEXTURE_WRAP_T, (GL_CLAMP_TO_EDGE : Int))] }

/-- The binding produced by a successful `new wGl wSurf`. -/
def wTex : NativeSurfaceTexture :=
  { surface := wSurf, gl_texture := 1 }

/-- A GL state whose mock `egl::BindTexImage` fails, for the image-bind
failure path. -/
def wGlBindFail : GlState :=
  { wGl with bindTexImageOk := false }

/-- A concrete display on which one configuration is found and surface
creation succeeds, used by witnesses. -/
def wDisplay : EglDisplay :=
  { ChooseConfig := fun _ => (true, 3, 1),
    CreatePbufferSurface := fun _ _ => 7 }

/-- A concrete display reporting zero matching configurations. -/
def wDisplayNoConfig : EglDisplay :=
  { ChooseConfig := fun _ => (true, 3, 0),
    CreatePbufferSurface := fun _ _ => 7 }

/-- A concrete display on which pbuffer-surface creation fails
(`EGL_NO_SURFACE`). -/
def wDisplayNoSurface : EglDisplay :=
  { ChooseConfig := fun _ => (true, 3, 1),
    CreatePbufferSurface := fun _ _ => 0 }

/-- A GL state whose mock `gl.gen_textures` hands back the id 0, for the
texture-allocation failure path. -/
def wGlZeroTex : GlState :=
  { wGl with nextTexture := 0 }

end Surfman

namespace Surfman

/-- C1: for every `(api_type, api_version)` pair the pure function
`get_pbuffer_renderable_type` returns exactly the policy-table value, and
the table maps every combination (so the set of unmapped combinations that
would have to fail with `NoCompatibleConfiguration` is empty). -/
theorem c1_renderable_type_matches_table
    (api_type : GlType) (api_version : GLVersion) :
    renderableTypeTable api_type api_version.major_version =
      some (get_pbuffer_renderable_type api_type api_version) := by
  cases api_type with
  | Gl => rfl
  | Gles =>
    simp only [renderableTypeTable, get_pbuffer_renderable_type]
    split_ifs <;> rfl

/-- Anatomy of a successful `NativeSurfaceTexture::new`: the binding holds
the surface that was moved in and the generated (nonzero) texture id, the
current 2D texture binding point has been reset to 0, and no texture was
deleted. -/
theorem new_ok_spec {st : GlState} {s : NativeSurface} {st' : GlState}
    {t : NativeSurfaceTexture}
    (h : NativeSurfaceTexture.new st s = NewResult.ok st' t) :
    t.surface = s ∧ t.gl_texture = st.nextTexture ∧ st.nextTexture ≠ 0 ∧
      st'.currentTexture2D = 0 ∧ st'.deletedTextures = st.deletedTextures := by
  simp only [NativeSurfaceTexture.new] at h
  split_ifs at h with h0 hb hg
  injection h with hst ht
  subst hst
  subst ht
  exact ⟨rfl, rfl, h0, rfl, rfl⟩

/-- After at least one `destroy`, the stored texture id is zero. -/
theorem applyDestroys_succ_texture (n : Nat) :
    ∀ p : GlState × NativeSurfaceTexture,
      (applyDestroys (n + 1) p).2.gl_texture = 0 := by
  induction n with
  | zero => intro p; rfl
  | succ n ih => intro p; exact ih _

/-- Once a binding's texture id is zero, further destroys only ever delete
texture 0, so the count of deletions of any nonzero id is unchanged. -/
theorem applyDestroys_count_of_zeroed (tex : Nat) (htex : tex ≠ 0)
    (n : Nat) :
    ∀ (st : GlState) (t : NativeSurfaceTexture), t.gl_texture = 0 →
      (applyDestroys n (st, t)).1.deletedTextures.count tex =
        st.deletedTextures.count tex := by
  induction n with
  | zero => intro st t _; rfl
  | succ n ih =>
    intro st t ht
    have hstep : applyDestroys (n + 1) (st, t) =
        applyDestroys n (NativeSurfaceTexture.destroy st t) := rfl
    rw [hstep]
    have hrec := ih ({ st with
        releasedTexImages :=
          st.releasedTexImages ++ [(t.surface.wrapper, t.gl_texture)],
        deletedTextures := st.deletedTextures ++ [t.gl_texture] })
      ({ t with gl_texture := 0 }) rfl
    rw [show NativeSurfaceTexture.destroy st t =
        ({ st with
            releasedTexImages :=
              st.releasedTexImages ++ [(t.surface.wrapper, t.gl_texture)],
            deletedTextures := st.deletedTextures ++ [t.gl_texture] },
         { t with gl_texture := 0 }) from rfl]
    rw [hrec]
    simp [ht, List.count_append, htex]

/-- Invariant of the `Arc` model: along any valid trace, either some
reference is still alive and `DestroySurface` has not run, or no reference
is alive and `DestroySurface` has run exactly once. -/
theorem arcRun_destroy_once_inv (ops : List ArcOp) :
    ∀ s : ArcState, arcValid s ops = true →
      ((0 < s.refcount ∧ s.destroyCalls = 0) ∨
        (s.refcount = 0 ∧ s.destroyCalls = 1)) →
      ((0 < (arcRun s ops).refcount ∧ (arcRun s ops).destroyCalls = 0) ∨
        ((arcRun s ops).refcount = 0 ∧ (arcRun s ops).destroyCalls = 1)) := by
  induction ops with
  | nil => intro s _ hP; exact hP
  | cons op ops ih =>
    intro s hv hP
    have hv' : 0 < s.refcount ∧ arcValid (arcStep s op) ops = true := by
      simpa [arcValid, Bool.and_eq_true] using hv
    refine ih (arcStep s op) hv'.2 ?_
    rcases hP with ⟨hpos, hdc⟩ | ⟨hzero, _⟩
    · cases op with
      | clone => exact Or.inl ⟨Nat.succ_pos _, hdc⟩
      | drop =>
        show (0 < (arcStep s ArcOp.drop).refcount ∧
            (arcStep s ArcOp.drop).destroyCalls = 0) ∨
          ((arcStep s ArcOp.drop).refcount = 0 ∧
            (arcStep s ArcOp.drop).destroyCalls = 1)
        by_cases h1 : s.refcount = 1
        · rw [show arcStep s ArcOp.drop =
              { refcount := 0, destroyCalls := s.destroyCalls + 1 } from
              by simp [arcStep, h1]]
          exact Or.inr ⟨rfl, by simp [hdc]⟩
        · rw [show arcStep s ArcOp.drop =
              { s with refcount := s.refcount - 1 } from
              by simp [arcStep, h1]]
          exact Or.inl ⟨by show 0 < s.refcount - 1; omega, hdc⟩
    · exact absurd hv'.1 (by omega)

/-- C2: binding a surface to a texture (`NativeSurfaceTexture::new`) and
then unbinding (`into_surface`) yields a surface whose `size()`,
`format()`, `api_version()` and `id()` all equal those of the surface that
was bound (round-trip law). -/
theorem c2_bind_unbind_round_trip (st : GlState) (s : NativeSurface)
    (st' : GlState) (t : NativeSurfaceTexture)
    (h : NativeSurfaceTexture.new st s = NewResult.ok st' t) :
    (NativeSurfaceTexture.into_surface st' t).2.size = s.size ∧
      (NativeSurfaceTexture.into_surface st' t).2.format = s.format ∧
      (NativeSurfaceTexture.into_surface st' t).2.api_version =
        s.api_version ∧
      (NativeSurfaceTexture.into_surface st' t).2.id = s.id := by
  obtain ⟨hs, -, -, -, -⟩ := new_ok_spec h
  subst hs
  exact ⟨rfl, rfl, rfl, rfl⟩

/-- C2 witness: the round trip evaluated on a concrete 64x64 RGBA8
surface. -/
theorem c2_bind_unbind_round_trip_witness :
    (NativeSurfaceTexture.into_surface wGl1 wTex).2.size = wSurf.size ∧
      (NativeSurfaceTexture.into_surface wGl1 wTex).2.format =
        wSurf.format ∧
      (NativeSurfaceTexture.into_surface wGl1 wTex).2.api_version =
        wSurf.api_version ∧
      (NativeSurfaceTexture.into_surface wGl1 wTex).2.id = wSurf.id :=
  c2_bind_unbind_round_trip wGl wSurf wGl1 wTex (by decide)

/-- C3: along any valid sequence of clones and drops of a surface's shared
reference, once the last reference is gone the display's `DestroySurface`
has been invoked exactly once, no matter how many clones existed. -/
theorem c3_destroy_exactly_once (ops : List ArcOp)
    (hv : arcValid arcInit ops = true)
    (hz : (arcRun arcInit ops).refcount = 0) :
    (arcRun arcInit ops).destroyCalls = 1 := by
  have hinv := arcRun_destroy_once_inv ops arcInit hv
    (Or.inl ⟨Nat.one_pos, rfl⟩)
  rcases hinv with ⟨hpos, _⟩ | ⟨_, hdc⟩
  · omega
  · exact hdc

/-- C3 witness: two clones (three references), then three drops: the trace
is valid, ends with no live reference, and exactly one destroy call. -/
theorem c3_destroy_exactly_once_witness :
    arcValid arcInit
        [ArcOp.clone, ArcOp.clone, ArcOp.drop, ArcOp.drop, ArcOp.drop] =
      true ∧
    (arcRun arcInit
        [ArcOp.clone, ArcOp.clone, ArcOp.drop, ArcOp.drop,
          ArcOp.drop]).refcount = 0 ∧
    (arcRun arcInit
        [ArcOp.clone, ArcOp.clone, ArcOp.drop, ArcOp.drop,
          ArcOp.drop]).destroyCalls = 1 :=
  ⟨by decide, by decide,
    c3_destroy_exactly_once
      [ArcOp.clone, ArcOp.clone, ArcOp.drop, ArcOp.drop, ArcOp.drop]
      (by decide) (by decide)⟩

/-- C4 counterexample: on a display reporting zero matching
configurations, surface creation aborts (a `panic!` carrying
"No valid EGL configurations found!"); it does not surface a typed
`NoCompatibleConfiguration` failure value to the immediate caller, so the
claim as stated is false. -/
theorem c4_counterexample_no_config_panics :
    NativeSurface.from_version_size_format wDisplayNoConfig GlType.Gles
        { major := 3, minor := 0 } { width := 64, height := 64 }
        Format.rgba8 =
      SurfResult.panicked "No valid EGL configurations found!" := by
  rfl

/-- C4 (amended): every allocation-failure kind is detected and reported,
but by aborting rather than as a typed error value: zero matching
configurations and failed pbuffer-surface creation panic with distinct
messages, and a zero texture id from the allocator trips the
`debug_assert!`. -/
theorem c4_amended_failures_abort (d1 d2 : EglDisplay) (api_type : GlType)
    (api_version : GLVersion) (size : Size2D) (format : Format)
    (st : GlState) (s : NativeSurface) (cfg2 cnt2 : Nat)
    (h1 : (d1.ChooseConfig (pbuffer_attributes
        (get_pbuffer_renderable_type api_type api_version))).1 = true)
    (h1' : (d1.ChooseConfig (pbuffer_attributes
        (get_pbuffer_renderable_type api_type api_version))).2.2 = 0)
    (h2 : d2.ChooseConfig (pbuffer_attributes
        (get_pbuffer_renderable_type api_type api_version)) =
      (true, cfg2, cnt2))
    (h2' : cnt2 ≠ 0)
    (h3 : d2.CreatePbufferSurface cfg2 (pbuffer_size_attributes size) = 0)
    (h4 : st.nextTexture = 0) :
    NativeSurface.from_version_size_format d1 api_type api_version size
        format =
      SurfResult.panicked "No valid EGL configurations found!" ∧
    NativeSurface.from_version_size_format d2 api_type api_version size
        format =
      SurfResult.panicked "Failed to create EGL surface!" ∧
    NativeSurfaceTexture.new st s =
      NewResult.panicked st "assertion failed: texture != 0" := by
  refine ⟨?_, ?_, ?_⟩
  · simp [NativeSurface.from_version_size_format, h1, h1']
  · simp [NativeSurface.from_version_size_format, h2, h2', h3]
  · simp [NativeSurfaceTexture.new, h4]

/-- C4 witness: the three failure kinds evaluated on concrete mocks. -/
theorem c4_amended_failures_abort_witness :
    NativeSurface.from_version_size_format wDisplayNoConfig GlType.Gles
        { major := 3, minor := 0 } { width := 64, height := 64 }
        Format.rgba8 =
      SurfResult.panicked "No valid EGL configurations found!" ∧
    NativeSurface.from_version_size_format wDisplayNoSurface GlType.Gles
        { major := 3, minor := 0 } { width := 64, height := 64 }
        Format.rgba8 =
      SurfResult.panicked "Failed to create EGL surface!" ∧
    NativeSurfaceTexture.new wGlZeroTex wSurf =
      NewResult.panicked wGlZeroTex "assertion failed: texture != 0" :=
  c4_amended_failures_abort wDisplayNoConfig wDisplayNoSurface GlType.Gles
    { major := 3, minor := 0 } { width := 64, height := 64 } Format.rgba8
    wGlZeroTex wSurf 3 1 rfl rfl rfl (by decide) rfl rfl

/-- C5 counterexample: with a mock whose image-binding call fails, `new`
panics with "Failed to bind EGL texture surface!" while the generated
texture (id 1) has NOT been deleted — the deleted-texture list at the
panic is empty, so the claim that the texture is deleted before the error
propagates is false. -/
theorem c5_counterexample_bind_failure_no_delete :
    NativeSurfaceTexture.new wGlBindFail wSurf =
      NewResult.panicked { wGlBindFail with currentTexture2D := 1 }
        "Failed to bind EGL texture surface!" ∧
    ({ wGlBindFail with currentTexture2D := 1 } :
        GlState).deletedTextures.count 1 = 0 := by
  exact ⟨rfl, rfl⟩

/-- C5 (amended): if the image-binding call fails during bind, the code
panics with "Failed to bind EGL texture surface!" without deleting the
allocated texture object (the deleted-texture list is unchanged): the
texture is leaked on the failure path. -/
theorem c5_amended_bind_failure_leaks_texture (st : GlState)
    (s : NativeSurface) (st' : GlState) (msg : String)
    (h0 : st.nextTexture ≠ 0) (hb : st.bindTexImageOk = false)
    (h : NativeSurfaceTexture.new st s = NewResult.panicked st' msg) :
    msg = "Failed to bind EGL texture surface!" ∧
      st'.deletedTextures = st.deletedTextures := by
  simp only [NativeSurfaceTexture.new, if_neg h0, hb] at h
  injection h with hst hmsg
  subst hst
  exact ⟨hmsg.symm, rfl⟩

/-- C5 witness: the leak evaluated on the concrete failing mock. -/
theorem c5_amended_bind_failure_leaks_texture_witness :
    "Failed to bind EGL texture surface!" =
        "Failed to bind EGL texture surface!" ∧
      ({ wGlBindFail with currentTexture2D := 1 } :
          GlState).deletedTextures = wGlBindFail.deletedTextures :=
  c5_amended_bind_failure_leaks_texture wGlBindFail wSurf
    { wGlBindFail with currentTexture2D := 1 }
    "Failed to bind EGL texture surface!" (by decide) rfl (by decide)

/-- C6: for a binding produced by a successful bind, the stored texture
identifier is nonzero exactly while the binding is bound — i.e., exactly
when no `destroy` has been applied; every further `destroy` keeps it
zero. -/
theorem c6_texture_nonzero_iff_bound (st : GlState) (s : NativeSurface)
    (st' : GlState) (t : NativeSurfaceTexture)
    (h : NativeSurfaceTexture.new st s = NewResult.ok st' t) (n : Nat) :
    ((applyDestroys n (st', t)).2.gl_texture ≠ 0) ↔ n = 0 := by
  obtain ⟨-, ht, h0, -, -⟩ := new_ok_spec h
  cases n with
  | zero =>
    simp only [applyDestroys]
    simpa [ht] using h0
  | succ n =>
    simp [applyDestroys_succ_texture n (st', t)]

/-- C6 witness: on the concrete binding, the id is nonzero with zero
destroys and zero after two destroys. -/
theorem c6_texture_nonzero_iff_bound_witness :
    (((applyDestroys 0 (wGl1, wTex)).2.gl_texture ≠ 0) ↔ 0 = 0) ∧
      (((applyDestroys 2 (wGl1, wTex)).2.gl_texture ≠ 0) ↔ 2 = 0) :=
  ⟨c6_texture_nonzero_iff_bound wGl wSurf wGl1 wTex (by decide) 0,
    c6_texture_nonzero_iff_bound wGl wSurf wGl1 wTex (by decide) 2⟩

/-- C7: creating a surface (`from_version_size_format`) with positive
width and height and then reading `size()` and `format()` returns exactly
the input size and format. -/
theorem c7_create_preserves_size_format (d : EglDisplay)
    (api_type : GlType) (api_version : GLVersion) (size : Size2D)
    (format : Format) (s : NativeSurface)
    (_hw : 0 < size.width) (_hh : 0 < size.height)
    (h : NativeSurface.from_version_size_format d api_type api_version
        size format = SurfResult.ok s) :
    s.size = size ∧ s.format = format := by
  simp only [NativeSurface.from_version_size_format] at h
  split_ifs at h
  injection h with hs
  subst hs
  exact ⟨rfl, rfl⟩

/-- C7 witness: creation on the concrete healthy display returns the
64x64 size and RGBA8 format unchanged. -/
theorem c7_create_preserves_size_format_witness :
    (0 : Int) < 64 ∧ wSurf.size = { width := 64, height := 64 } ∧
      wSurf.format = Format.rgba8 :=
  ⟨by decide,
    c7_create_preserves_size_format wDisplay GlType.Gles
      { major := 3, minor := 0 } { width := 64, height := 64 }
      Format.rgba8 wSurf (by decide) (by decide) rfl⟩

/-- C8: for a binding produced by a successful bind whose texture id is
fresh, any number of `destroy` calls deletes the allocated texture object
exactly `min n 1` times — in particular at most once, because a second
`destroy` deletes texture 0, not the original id. -/
theorem c8_at_most_one_delete (st : GlState) (s : NativeSurface)
    (st' : GlState) (t : NativeSurfaceTexture)
    (h : NativeSurfaceTexture.new st s = NewResult.ok st' t)
    (hfresh : st.deletedTextures.count st.nextTexture = 0) (n : Nat) :
    (applyDestroys n (st', t)).1.deletedTextures.count st.nextTexture =
      min n 1 := by
  obtain ⟨-, ht, h0, -, hdel⟩ := new_ok_spec h
  cases n with
  | zero =>
    simp only [applyDestroys]
    simp [hdel, hfresh]
  | succ n =>
    have hstep : applyDestroys (n + 1) (st', t) =
        applyDestroys n (NativeSurfaceTexture.destroy st' t) := rfl
    rw [hstep]
    have hrec := applyDestroys_count_of_zeroed st.nextTexture h0 n
      ({ st' with
          releasedTexImages :=
            st'.releasedTexImages ++ [(t.surface.wrapper, t.gl_texture)],
          deletedTextures := st'.deletedTextures ++ [t.gl_texture] })
      ({ t with gl_texture := 0 }) rfl
    rw [show NativeSurfaceTexture.destroy st' t =
        ({ st' with
            releasedTexImages :=
              st'.releasedTexImages ++ [(t.surface.wrapper, t.gl_texture)],
            deletedTextures := st'.deletedTextures ++ [t.gl_texture] },
         { t with gl_texture := 0 }) from rfl]
    rw [hrec]
    simp [hdel, hfresh, ht, List.count_append]

/-- C8 witness: on the concrete binding, zero destroys delete the original
texture 0 times and two destroys delete it exactly once. -/
theorem c8_at_most_one_delete_witness :
    ((applyDestroys 0 (wGl1, wTex)).1.deletedTextures.count
        wGl.nextTexture = min 0 1) ∧
      ((applyDestroys 2 (wGl1, wTex)).1.deletedTextures.count
          wGl.nextTexture = min 2 1) :=
  ⟨c8_at_most_one_delete wGl wSurf wGl1 wTex (by decide) (by decide) 0,
    c8_at_most_one_delete wGl wSurf wGl1 wTex (by decide) (by decide) 2⟩

/-- C9: after a successful bind (`NativeSurfaceTexture::new`), the current
2D texture binding point has been reset to 0 (none): the bind sequence
leaves no implicit global binding-point state changed. -/
theorem c9_binding_point_restored (st : GlState) (s : NativeSurface)
    (st' : GlState) (t : NativeSurfaceTexture)
    (h : NativeSurfaceTexture.new st s = NewResult.ok st' t) :
    st'.currentTexture2D = 0 :=
  (new_ok_spec h).2.2.2.1

/-- C9 witness: binding-point restoration on the concrete bind. -/
theorem c9_binding_point_restored_witness :
    NativeSurfaceTexture.new wGl wSurf = NewResult.ok wGl1 wTex ∧
      wGl1.currentTexture2D = 0 :=
  ⟨by decide, c9_binding_point_restored wGl wSurf wGl1 wTex (by decide)⟩

/-- C10: `gl_texture_target` is a total function returning the constant
2D texture target, independent of the binding's state — in particular it
returns `gl::TEXTURE_2D` even after any number of destroys has zeroed the
texture identifier. -/
theorem c10_texture_target_constant (t : NativeSurfaceTexture)
    (st : GlState) (n : Nat) :
    NativeSurfaceTexture.gl_texture_target t = GL_TEXTURE_2D ∧
      NativeSurfaceTexture.gl_texture_target
        (applyDestroys n (st, t)).2 = GL_TEXTURE_2D :=
  ⟨rfl, rfl⟩

end Surfman
